import Mathlib

/-
Verification of the PyYAML C bridge headers:
  src/ext/_yaml.h, src/yaml/_yaml.h, src/fyaml/_fyaml.h
against the design of the event/token marshaling layer.

The headers supply: the Python-2 compatibility definition of
PyUnicode_FromString in terms of PyUnicode_DecodeUTF8, the Python-3
aliasing of the legacy PyString_* operations to the PyBytes_* operations,
the MSVC 6.0 substitute for PyLong_FromUnsignedLongLong, and the
_fy_event struct mirroring the fy_event of libfyaml with a named union.
Everything below is a shallow embedding of those definitions; byte
buffers are lists of byte values (Nat below 256), C strings are
NUL-terminated byte lists, Python objects are a small tagged model.
-/

set_option autoImplicit false

namespace PyYamlBridge

/-! ## UTF-8 decoding (model of the CPython strict UTF-8 codec) -/

/-- True when b is a UTF-8 continuation byte (of the form 10xxxxxx). -/
def isCont (b : Nat) : Bool := 0x80 ≤ b && b < 0xC0

/-- Strict UTF-8 decoding of a byte list into a list of code points.
Returns none on any invalid input: stray continuation bytes, truncated
multi-byte sequences, overlong encodings, surrogate code points and
code points above 0x10FFFF. This models what the CPython UTF-8 decoder
accepts; the error *handling* on a none result depends on the errors
argument and is modelled separately. -/
def utf8Decode : List Nat → Option (List Nat)
  | [] => some []
  | b :: rest =>
    if b < 0x80 then
      (utf8Decode rest).map (fun cps => b :: cps)
    else if b < 0xC2 then none
    else if b < 0xE0 then
      match rest with
      | [] => none
      | b1 :: rest1 =>
        if isCont b1 then
          (utf8Decode rest1).map (fun cps => ((b - 0xC0) * 64 + (b1 - 0x80)) :: cps)
        else none
    else if b < 0xF0 then
      match rest with
      | b1 :: b2 :: rest2 =>
        if isCont b1 && isCont b2 then
          let cp := (b - 0xE0) * 4096 + (b1 - 0x80) * 64 + (b2 - 0x80)
          if cp < 0x800 || (0xD800 ≤ cp && cp < 0xE000) then none
          else (utf8Decode rest2).map (fun cps => cp :: cps)
        else none
      | _ => none
    else if b < 0xF5 then
      match rest with
      | b1 :: b2 :: b3 :: rest3 =>
        if isCont b1 && isCont b2 && isCont b3 then
          let cp := (b - 0xF0) * 262144 + (b1 - 0x80) * 4096 + (b2 - 0x80) * 64 + (b3 - 0x80)
          if cp < 0x10000 || 0x110000 ≤ cp then none
          else (utf8Decode rest3).map (fun cps => cp :: cps)
        else none
      | _ => none
    else none

/-! ## C strings and strlen -/

/-- C strlen over the byte-list model: the number of bytes before the
first NUL byte. The C code only ever applies strlen to NUL-terminated
engine strings; on a list with no 0 this model returns the full length
(the in-memory terminator sits just past the modelled bytes). -/
def strlen : List Nat → Nat
  | [] => 0
  | b :: rest => if b = 0 then 0 else strlen rest + 1

/-- The byte span the macro PyUnicode_FromString(s) hands to the decoder:
the pair ((s), strlen(s)) from src/yaml/_yaml.h line 6 and
src/ext/_yaml.h line 6, i.e. the prefix of s of length strlen s. -/
def bytesConsumed (s : List Nat) : List Nat := s.take (strlen s)

/-! ## The errors argument of PyUnicode_DecodeUTF8 -/

/-- How the third (errors) argument of PyUnicode_DecodeUTF8 is spelled
at a call site. C distinguishes the string literal "strict" (a
const char pointer to the bytes s,t,r,i,c,t,NUL) from the character
constant with the same letters between single quotes, which is a
multi-character constant of type int, not a pointer. -/
inductive ErrorsSpelling where
  | stringLiteral (s : String)
  | charConstant (s : String)
deriving DecidableEq

/-- Result of a modelled CPython decode call. -/
inductive DecodeResult where
  /-- Decoding succeeded with these code points. -/
  | ok (codepoints : List Nat)
  /-- Strict handler: a UnicodeDecodeError (EncodingError) is raised. -/
  | encodingError
  /-- A registered non-strict handler would run (never reached by this
  code base, which only ever spells "strict"). -/
  | otherPolicy
  /-- The errors argument is not a valid pointer to a handler name:
  CPython dereferences it when a decode error occurs, so the behavior
  is undefined. -/
  | undefinedBehavior
deriving DecidableEq

/-- Model of PyUnicode_DecodeUTF8(buf, len, errors): decodes buf as
UTF-8; the errors argument is consulted only when decoding fails, at
which point CPython looks up the error handler named by the pointer.
A character-constant argument is an int smuggled into a pointer
parameter, so consulting it is undefined behavior. -/
def PyUnicode_DecodeUTF8 (buf : List Nat) (errors : ErrorsSpelling) : DecodeResult :=
  match utf8Decode buf with
  | some cps => .ok cps
  | none =>
    match errors with
    | .stringLiteral e => if e = "strict" then .encodingError else .otherPolicy
    | .charConstant _ => .undefinedBehavior

/-- The errors argument written in src/yaml/_yaml.h line 6:
the string literal "strict". -/
def errorsArg_yaml : ErrorsSpelling := .stringLiteral "strict"

/-- The errors argument written in src/ext/_yaml.h line 6: the
character constant with the letters s,t,r,i,c,t between single
quotes (an int), not the string literal. -/
def errorsArg_ext : ErrorsSpelling := .charConstant "strict"

/-- The Python-2 branch of src/yaml/_yaml.h line 6:
PyUnicode_FromString(s) expands to
PyUnicode_DecodeUTF8((s), strlen(s), "strict"). -/
def PyUnicode_FromString_yaml (s : List Nat) : DecodeResult :=
  PyUnicode_DecodeUTF8 (bytesConsumed s) errorsArg_yaml

/-- The Python-2 branch of src/ext/_yaml.h line 6:
PyUnicode_FromString(s) expands to
PyUnicode_DecodeUTF8 of (s), strlen(s) and a single-quoted strict, a character
constant in the errors position. -/
def PyUnicode_FromString_ext (s : List Nat) : DecodeResult :=
  PyUnicode_DecodeUTF8 (bytesConsumed s) errorsArg_ext

/-- src/yaml/_yaml.h line 19: PyUnicode_FromYamlString(s) expands to
PyUnicode_FromString applied to s cast to const char *; the cast does
not change the bytes, so in the model it is PyUnicode_FromString. -/
def PyUnicode_FromYamlString (s : List Nat) : DecodeResult :=
  PyUnicode_FromString_yaml s

/-! ## Host object model and the Python-3 (modern) string operations -/

/-- A Python object as far as the marshaling layer can see it: a text
(unicode) value holding code points, a bytes value holding raw bytes,
or any other object. -/
inductive PyObject where
  | text (codepoints : List Nat)
  | bytes (data : List Nat)
  | other
deriving DecidableEq

/-- PyBytes_CheckExact: exact-type check for the byte-sequence type. -/
def PyBytes_CheckExact : PyObject → Bool
  | .bytes _ => true
  | _ => false

/-- PyBytes_AS_STRING: unchecked data-pointer access; only meaningful
on a bytes object (the macro has undefined behavior elsewhere, the
model returns the empty buffer there). -/
def PyBytes_AS_STRING : PyObject → List Nat
  | .bytes d => d
  | _ => []

/-- PyBytes_GET_SIZE: unchecked size query; only meaningful on a bytes
object. -/
def PyBytes_GET_SIZE : PyObject → Nat
  | .bytes d => d.length
  | _ => 0

/-- PyBytes_FromStringAndSize(buf, len): builds a bytes object from the
first len bytes of buf. -/
def PyBytes_FromStringAndSize (buf : List Nat) (len : Nat) : PyObject :=
  .bytes (buf.take len)

/-- src/yaml/_yaml.h line 11 and src/ext/_yaml.h line 10 (Python-3
branch): PyString_CheckExact is defined to be PyBytes_CheckExact. -/
def PyString_CheckExact : PyObject → Bool := PyBytes_CheckExact

/-- src/yaml/_yaml.h line 13 and src/ext/_yaml.h line 11:
PyString_AS_STRING is defined to be PyBytes_AS_STRING. -/
def PyString_AS_STRING : PyObject → List Nat := PyBytes_AS_STRING

/-- src/yaml/_yaml.h line 14 and src/ext/_yaml.h line 12:
PyString_GET_SIZE is defined to be PyBytes_GET_SIZE. -/
def PyString_GET_SIZE : PyObject → Nat := PyBytes_GET_SIZE

/-- src/yaml/_yaml.h line 15 and src/ext/_yaml.h line 13:
PyString_FromStringAndSize is defined to be
PyBytes_FromStringAndSize. -/
def PyString_FromStringAndSize : List Nat → Nat → PyObject :=
  PyBytes_FromStringAndSize

/-- The native CPython PyUnicode_FromString as used in the Python-3 branch
(where the headers do not redefine it): strict UTF-8 decode of the
NUL-terminated buffer, yielding a text object, or failing on invalid
UTF-8. -/
def PyUnicode_FromString_native (s : List Nat) : Option PyObject :=
  match utf8Decode (bytesConsumed s) with
  | some cps => some (.text cps)
  | none => none

/-! ## The MSVC 6.0 integer-conversion shim -/

/-- CPython legacy PyInt_FromLong: builds an integer object whose
value is that of its C long argument. -/
def PyInt_FromLong (v : Int) : Int := v

/-- src/yaml/_yaml.h lines 22-28 and src/fyaml/_fyaml.h lines 63-69:
under MSVC 6.0 the macro PyLong_FromUnsignedLongLong(z) is defined
with body PyInt_FromLong(i). The body names i, not the parameter z,
so the expansion converts whatever variable i denotes at the expansion
site; z is the unsigned 64-bit macro argument and i the value of that
ambient variable. -/
def PyLong_FromUnsignedLongLong_msvc6 (z : Nat) (i : Int) : Int :=
  PyInt_FromLong i

/-! ## The mirrored _fy_event struct of src/fyaml/_fyaml.h -/

/-- The C types occurring as field types in the _fy_event union
members: a pointer to struct fy_token, a pointer to
struct fy_document_state, and bool. -/
inductive CType where
  | fy_token_ptr
  | fy_document_state_ptr
  | cbool
deriving DecidableEq

/-- A declared struct field: its name and its C type. -/
structure CField where
  name : String
  type : CType
deriving DecidableEq

/-- A member of the named union inside struct _fy_event: the member
name and the ordered field list of its struct. -/
structure CUnionMember where
  name : String
  fields : List CField
deriving DecidableEq

/-- src/fyaml/_fyaml.h lines 11-13: the stream_start member. -/
def stream_start_member : CUnionMember :=
  ⟨"stream_start", [⟨"stream_start", .fy_token_ptr⟩]⟩

/-- src/fyaml/_fyaml.h lines 15-17: the stream_end member. -/
def stream_end_member : CUnionMember :=
  ⟨"stream_end", [⟨"stream_end", .fy_token_ptr⟩]⟩

/-- src/fyaml/_fyaml.h lines 19-23: the document_start member. -/
def document_start_member : CUnionMember :=
  ⟨"document_start",
    [⟨"document_start", .fy_token_ptr⟩,
     ⟨"document_state", .fy_document_state_ptr⟩,
     ⟨"implicit", .cbool⟩]⟩

/-- src/fyaml/_fyaml.h lines 25-28: the document_end member. -/
def document_end_member : CUnionMember :=
  ⟨"document_end",
    [⟨"document_end", .fy_token_ptr⟩, ⟨"implicit", .cbool⟩]⟩

/-- src/fyaml/_fyaml.h lines 30-32: the alias member. -/
def alias_member : CUnionMember :=
  ⟨"alias", [⟨"anchor", .fy_token_ptr⟩]⟩

/-- src/fyaml/_fyaml.h lines 34-39: the scalar member. -/
def scalar_member : CUnionMember :=
  ⟨"scalar",
    [⟨"anchor", .fy_token_ptr⟩,
     ⟨"tag", .fy_token_ptr⟩,
     ⟨"value", .fy_token_ptr⟩,
     ⟨"tag_implicit", .cbool⟩]⟩

/-- src/fyaml/_fyaml.h lines 41-45: the sequence_start member. -/
def sequence_start_member : CUnionMember :=
  ⟨"sequence_start",
    [⟨"anchor", .fy_token_ptr⟩,
     ⟨"tag", .fy_token_ptr⟩,
     ⟨"sequence_start", .fy_token_ptr⟩]⟩

/-- src/fyaml/_fyaml.h lines 47-49: the sequence_end member. -/
def sequence_end_member : CUnionMember :=
  ⟨"sequence_end", [⟨"sequence_end", .fy_token_ptr⟩]⟩

/-- src/fyaml/_fyaml.h lines 51-55: the mapping_start member. -/
def mapping_start_member : CUnionMember :=
  ⟨"mapping_start",
    [⟨"anchor", .fy_token_ptr⟩,
     ⟨"tag", .fy_token_ptr⟩,
     ⟨"mapping_start", .fy_token_ptr⟩]⟩

/-- src/fyaml/_fyaml.h lines 57-59: the mapping_end member. -/
def mapping_end_member : CUnionMember :=
  ⟨"mapping_end", [⟨"mapping_end", .fy_token_ptr⟩]⟩

/-- src/fyaml/_fyaml.h lines 10-60: the union members of
struct _fy_event, in declaration order. -/
def _fy_event_members : List CUnionMember :=
  [stream_start_member, stream_end_member, document_start_member,
   document_end_member, alias_member, scalar_member,
   sequence_start_member, sequence_end_member, mapping_start_member,
   mapping_end_member]

/-- The comment at src/fyaml/_fyaml.h line 5, stating how the mirror
is synchronized with the engine struct. -/
def _fy_event_sync_note : String :=
  "NOTE that this must be kept in sync _manually_"

/-- Build-time layout verification constructs (static assertions,
generated offset tables, configure-time checks) appearing in
src/fyaml/_fyaml.h: the header contains none; the struct is a hand-
written duplicate guarded only by the comment _fy_event_sync_note. -/
def _fy_event_build_time_checks : List String := []

/-! ## C struct layout: sizes, alignment, field offsets -/

/-- Target-dependent layout parameters: size and alignment of a data
pointer and of bool. -/
structure CLayoutParams where
  ptrSize : Nat
  ptrAlign : Nat
  boolSize : Nat
  boolAlign : Nat

/-- Round off up to the next multiple of align (alignUp off 0 = off). -/
def alignUp (off align : Nat) : Nat :=
  if align = 0 then off else ((off + align - 1) / align) * align

/-- Size of a field type under layout parameters p. -/
def sizeofType (p : CLayoutParams) : CType → Nat
  | .fy_token_ptr => p.ptrSize
  | .fy_document_state_ptr => p.ptrSize
  | .cbool => p.boolSize

/-- Alignment of a field type under layout parameters p. -/
def alignofType (p : CLayoutParams) : CType → Nat
  | .fy_token_ptr => p.ptrAlign
  | .fy_document_state_ptr => p.ptrAlign
  | .cbool => p.boolAlign

/-- Offsets of the fields of a C struct laid out in declaration order:
each field starts at the current offset rounded up to the alignment of
its type. -/
def fieldOffsetsAux (p : CLayoutParams) : Nat → List CField → List Nat
  | _, [] => []
  | cur, f :: rest =>
    let off := alignUp cur (alignofType p f.type)
    off :: fieldOffsetsAux p (off + sizeofType p f.type) rest

/-- Offsets of a struct whose fields start at offset 0. -/
def fieldOffsets (p : CLayoutParams) (fields : List CField) : List Nat :=
  fieldOffsetsAux p 0 fields

/-! ## Engine and host events, decode and encode

The Cython modules that walk these structs are not part of the header
sources, so the decoder and encoder below are modelled from the spec
over the struct transcribed above. -/

/-- Modelled from the spec: the scalar style hint attached to a scalar
event ("style: enum" in the data model). -/
inductive ScalarStyle where
  | any
  | plain
  | singleQuoted
  | doubleQuoted
  | literal
  | folded
deriving DecidableEq

/-- Modelled from the spec: a Token is an opaque engine-owned handle to
a contiguous byte span. The mirrored event struct carries no style
field, so for scalar value tokens the style accessor must read the
style that the engine records on the token itself; the model therefore
gives every token a byte span and a style attribute. -/
structure EngineToken where
  bytes : List Nat
  style : ScalarStyle
deriving DecidableEq

/-- The engine event, following struct _fy_event
(src/fyaml/_fyaml.h lines 7-61): one constructor per union member,
holding exactly that member's declared fields. Token pointers that may
be NULL are Option; document_state is an opaque pointer value,
modelled as a Nat. The anchor of alias and the value of scalar are
semantically required tokens and are modelled as non-optional. -/
inductive EngineEvent where
  | stream_start (stream_start : Option EngineToken)
  | stream_end (stream_end : Option EngineToken)
  | document_start (document_start : Option EngineToken)
      (document_state : Nat) (implicit : Bool)
  | document_end (document_end : Option EngineToken) (implicit : Bool)
  | alias (anchor : EngineToken)
  | scalar (anchor : Option EngineToken) (tag : Option EngineToken)
      (value : EngineToken) (tag_implicit : Bool)
  | sequence_start (anchor : Option EngineToken) (tag : Option EngineToken)
      (sequence_start : Option EngineToken)
  | sequence_end (sequence_end : Option EngineToken)
  | mapping_start (anchor : Option EngineToken) (tag : Option EngineToken)
      (mapping_start : Option EngineToken)
  | mapping_end (mapping_end : Option EngineToken)
deriving DecidableEq

/-- Modelled from the spec: the host-native tagged event record of the
data model section. Host strings are byte spans (scalar content is
byte-identical across the bridge); document_state is the forwarded
opaque pointer value. -/
inductive HostEvent where
  | streamStart
  | streamEnd
  | documentStart (document_state : Nat) (implicit : Bool)
  | documentEnd (implicit : Bool)
  | alias (anchor : List Nat)
  | scalar (anchor : Option (List Nat)) (tag : Option (List Nat))
      (value : List Nat) (tag_implicit : Bool) (style : ScalarStyle)
  | sequenceStart (anchor : Option (List Nat)) (tag : Option (List Nat))
  | sequenceEnd
  | mappingStart (anchor : Option (List Nat)) (tag : Option (List Nat))
  | mappingEnd
deriving DecidableEq

/-- Modelled from the spec: the Event Decoder, absent from the header
sources. It switches on the engine event discriminant, extracts the
sub-fields of the active union member, copies token bytes out, maps a
NULL anchor or tag pointer to absent, passes document_state through
opaquely, and reads the scalar style off the value token. -/
def decode : EngineEvent → HostEvent
  | .stream_start _ => .streamStart
  | .stream_end _ => .streamEnd
  | .document_start _ ds implicit => .documentStart ds implicit
  | .document_end _ implicit => .documentEnd implicit
  | .alias a => .alias a.bytes
  | .scalar a t v ti =>
      .scalar (a.map EngineToken.bytes) (t.map EngineToken.bytes)
        v.bytes ti v.style
  | .sequence_start a t _ =>
      .sequenceStart (a.map EngineToken.bytes) (t.map EngineToken.bytes)
  | .sequence_end _ => .sequenceEnd
  | .mapping_start a t _ =>
      .mappingStart (a.map EngineToken.bytes) (t.map EngineToken.bytes)
  | .mapping_end _ => .mappingEnd

/-- Modelled from the spec: construction of a non-scalar engine token
from host bytes by the Event Encoder (anchor and tag tokens carry no
scalar style; the engine default is used). -/
def mkToken (bs : List Nat) : EngineToken := ⟨bs, .any⟩

/-- Modelled from the spec: the Event Encoder, absent from the header
sources. It switches on the host variant, converts host fields back
into engine tokens, passes absent optional fields as no token (NULL),
stores the scalar style on the value token, forwards document_state
unchanged, and leaves the eponymous tokens of the union members to the
engine (no token supplied). -/
def encode : HostEvent → EngineEvent
  | .streamStart => .stream_start none
  | .streamEnd => .stream_end none
  | .documentStart ds implicit => .document_start none ds implicit
  | .documentEnd implicit => .document_end none implicit
  | .alias a => .alias (mkToken a)
  | .scalar a t v ti st =>
      .scalar (a.map mkToken) (t.map mkToken) ⟨v, st⟩ ti
  | .sequenceStart a t =>
      .sequence_start (a.map mkToken) (t.map mkToken) none
  | .sequenceEnd => .sequence_end none
  | .mappingStart a t =>
      .mapping_start (a.map mkToken) (t.map mkToken) none
  | .mappingEnd => .mapping_end none

/-! ## Field accessors for the optional anchor and tag slots and for
document_state -/

/-- Modelled from the spec: the optional anchor slot of an engine
event, for the three variants where the anchor is optional (scalar,
sequence_start, mapping_start): some of the possibly-NULL pointer
there, none for every other variant. -/
def engineAnchorOpt : EngineEvent → Option (Option EngineToken)
  | .scalar a _ _ _ => some a
  | .sequence_start a _ _ => some a
  | .mapping_start a _ _ => some a
  | _ => none

/-- Modelled from the spec: the optional tag slot of an engine event
(scalar, sequence_start, mapping_start). -/
def engineTagOpt : EngineEvent → Option (Option EngineToken)
  | .scalar _ t _ _ => some t
  | .sequence_start _ t _ => some t
  | .mapping_start _ t _ => some t
  | _ => none

/-- Modelled from the spec: the optional anchor field of a host event
(Scalar, SequenceStart, MappingStart). -/
def hostAnchorOpt : HostEvent → Option (Option (List Nat))
  | .scalar a _ _ _ _ => some a
  | .sequenceStart a _ => some a
  | .mappingStart a _ => some a
  | _ => none

/-- Modelled from the spec: the optional tag field of a host event. -/
def hostTagOpt : HostEvent → Option (Option (List Nat))
  | .scalar _ t _ _ _ => some t
  | .sequenceStart _ t => some t
  | .mappingStart _ t => some t
  | _ => none

/-- The document_state pointer of an engine event
(src/fyaml/_fyaml.h line 21), present only on document_start. -/
def engineDocState : EngineEvent → Option Nat
  | .document_start _ ds _ => some ds
  | _ => none

/-- Modelled from the spec: the opaque document_state handle of a host
DocumentStart record. -/
def hostDocState : HostEvent → Option Nat
  | .documentStart ds _ => some ds
  | _ => none

/-! ## Helper lemmas -/

/-- A NUL head makes the consumed span empty. -/
theorem bytesConsumed_cons_zero (rest : List Nat) :
    bytesConsumed (0 :: rest) = [] := rfl

/-- A non-NUL head survives into the consumed span. -/
theorem bytesConsumed_cons (b : Nat) (rest : List Nat) (hb : b ≠ 0) :
    bytesConsumed (b :: rest) = b :: bytesConsumed rest := by
  simp [bytesConsumed, strlen, hb]

/-- Aligning offset 0 yields offset 0 for every alignment. -/
theorem alignUp_zero (a : Nat) : alignUp 0 a = 0 := by
  by_cases h : a = 0
  · simp [alignUp, h]
  · have h1 : (a - 1) / a = 0 := Nat.div_eq_of_lt (by omega)
    simp [alignUp, h, h1]

/-! ## Claims -/

/-- C1 counterexample: the mirror of the engine event struct in
src/fyaml/_fyaml.h is not derived from or verified against the engine
struct at build time — the header contains no build-time layout check
at all, and its own comment says the mirror must be kept in sync
manually. -/
theorem C1_no_build_time_check :
    _fy_event_build_time_checks = [] ∧
    _fy_event_sync_note = "NOTE that this must be kept in sync _manually_" :=
  ⟨rfl, rfl⟩

/-- C1 (amended): the mirrored struct _fy_event declares the ten union
members of the engine event, but it is a hand-written duplicate kept
in sync with the engine struct manually, as the header comment itself
states, with no build-time derivation or cross-check. -/
theorem C1_manual_sync :
    _fy_event_sync_note = "NOTE that this must be kept in sync _manually_" ∧
    _fy_event_build_time_checks = [] ∧
    _fy_event_members.map CUnionMember.name =
      ["stream_start", "stream_end", "document_start", "document_end",
       "alias", "scalar", "sequence_start", "sequence_end",
       "mapping_start", "mapping_end"] := by
  refine ⟨rfl, rfl, by decide⟩

/-- C2: invalid UTF-8 is surfaced under the strict policy by the
src/yaml/_yaml.h variant, whose errors argument is the string literal
"strict"; the src/ext/_yaml.h variant instead passes the character
constant spelled with single quotes, an int in a const char * slot,
so on the same invalid input its behavior is undefined rather than a
guaranteed EncodingError. -/
theorem C2_ext_errors_argument_bug :
    errorsArg_yaml = ErrorsSpelling.stringLiteral "strict" ∧
    errorsArg_ext = ErrorsSpelling.charConstant "strict" ∧
    errorsArg_ext ≠ errorsArg_yaml ∧
    PyUnicode_FromString_yaml [0xC3] = DecodeResult.encodingError ∧
    PyUnicode_FromString_ext [0xC3] = DecodeResult.undefinedBehavior := by
  refine ⟨rfl, rfl, by decide, by decide, by decide⟩

/-- C3 counterexample: the scalar member of the mirrored union
declares no style field, and it has four fields, not five. -/
theorem C3_no_style_field :
    "style" ∉ scalar_member.fields.map CField.name ∧
    scalar_member.fields.length ≠ 5 := by decide

/-- C3 (amended): the Scalar variant of the mirrored union carries
four sub-fields — anchor, tag and value token pointers and the
tag_implicit bool — with no style field; the decoder exposes each of
them, reading the style off the value token rather than off the event
struct. -/
theorem C3_scalar_four_fields :
    scalar_member.fields.map CField.name =
      ["anchor", "tag", "value", "tag_implicit"] ∧
    scalar_member.fields.map CField.type =
      [CType.fy_token_ptr, CType.fy_token_ptr, CType.fy_token_ptr,
       CType.cbool] ∧
    ∀ (a t : Option EngineToken) (v : EngineToken) (ti : Bool),
      decode (EngineEvent.scalar a t v ti) =
        HostEvent.scalar (a.map EngineToken.bytes) (t.map EngineToken.bytes)
          v.bytes ti v.style := by
  refine ⟨by decide, by decide, ?_⟩
  intro a t v ti
  rfl

/-- C3 witness: the amended claim at a concrete scalar event. -/
theorem C3_scalar_four_fields_witness :
    decode (EngineEvent.scalar none (some ⟨[33], ScalarStyle.any⟩)
        ⟨[97], ScalarStyle.plain⟩ true) =
      HostEvent.scalar none (some [33]) [97] true ScalarStyle.plain :=
  C3_scalar_four_fields.2.2 none (some ⟨[33], ScalarStyle.any⟩)
    ⟨[97], ScalarStyle.plain⟩ true

/-- C4: for every host event record of every variant, encoding to an
engine event and decoding back reproduces the original field-for-field
— anchors, tags, implicit flags, style and scalar content
byte-identical. -/
theorem C4_roundtrip : ∀ e : HostEvent, decode (encode e) = e := by
  intro e
  cases e <;> try rfl
  case scalar a t v ti st => cases a <;> cases t <;> rfl
  case sequenceStart a t => cases a <;> cases t <;> rfl
  case mappingStart a t => cases a <;> cases t <;> rfl

/-- C4 witness: the round trip at a concrete scalar event with anchor
present, tag absent and a non-default style. -/
theorem C4_roundtrip_witness :
    decode (encode (HostEvent.scalar (some [97]) none [233, 98] true
        ScalarStyle.doubleQuoted)) =
      HostEvent.scalar (some [97]) none [233, 98] true
        ScalarStyle.doubleQuoted :=
  C4_roundtrip
    (HostEvent.scalar (some [97]) none [233, 98] true ScalarStyle.doubleQuoted)

/-- C5 counterexample: the conversion does not cover NUL bytes inside
the buffer — on the buffer 97, 0, 98 only the first byte is handed to
the decoder, because the length is recomputed with strlen. -/
theorem C5_embedded_nul_truncates :
    bytesConsumed [97, 0, 98] ≠ [97, 0, 98] ∧
    PyUnicode_FromYamlString [97, 0, 98] = DecodeResult.ok [97] := by decide

/-- C5 (amended): PyUnicode_FromYamlString takes no length argument;
the converted span is recomputed from the buffer contents with strlen,
so it is the prefix before the first NUL byte: a buffer without NUL
bytes is converted byte-identically in full, and a buffer with an
embedded NUL is cut at that NUL. -/
theorem C5_strlen_semantics :
    (∀ s : List Nat, 0 ∉ s → bytesConsumed s = s) ∧
    (∀ pre post : List Nat, 0 ∉ pre →
      bytesConsumed (pre ++ 0 :: post) = pre) := by
  constructor
  · intro s hs
    induction s with
    | nil => rfl
    | cons b rest ih =>
      have hb : b ≠ 0 := by intro h; apply hs; simp [h]
      have hr : 0 ∉ rest := fun h => hs (List.mem_cons_of_mem b h)
      rw [bytesConsumed_cons b rest hb, ih hr]
  · intro pre post hpre
    induction pre with
    | nil => rfl
    | cons b rest ih =>
      have hb : b ≠ 0 := by intro h; apply hpre; simp [h]
      have hr : 0 ∉ rest := fun h => hpre (List.mem_cons_of_mem b h)
      rw [List.cons_append, bytesConsumed_cons b _ hb, ih hr]

/-- C5 witness: the amended claim at concrete buffers. -/
theorem C5_strlen_semantics_witness :
    bytesConsumed [97, 98] = [97, 98] ∧
    bytesConsumed ([97, 98] ++ 0 :: [99]) = [97, 98] :=
  ⟨C5_strlen_semantics.1 [97, 98] (by decide),
   C5_strlen_semantics.2 [97, 98] [99] (by decide)⟩

/-- C6: the MSVC 6.0 substitute macro for PyLong_FromUnsignedLongLong
does not produce its argument z — its body names the ambient variable
i instead of the parameter, so at z = 1 with i = 0 in scope the result
is 0, and the result is unchanged when z changes. -/
theorem C6_msvc6_macro_ignores_argument :
    PyLong_FromUnsignedLongLong_msvc6 1 0 = 0 ∧
    PyLong_FromUnsignedLongLong_msvc6 1 0 ≠ 1 ∧
    PyLong_FromUnsignedLongLong_msvc6 (2 ^ 64 - 1) 0 =
      PyLong_FromUnsignedLongLong_msvc6 0 0 := by
  refine ⟨rfl, by decide, rfl⟩

/-- C7: in the modern (Python-3) host mode every legacy unified-string
operation used by the marshaling adapter is definitionally the
corresponding byte-sequence operation, raw byte values pass through
construction and access unchanged, and the native scalar decode always
yields the distinct text type. -/
theorem C7_modern_mode_aliasing :
    PyString_CheckExact = PyBytes_CheckExact ∧
    PyString_AS_STRING = PyBytes_AS_STRING ∧
    PyString_GET_SIZE = PyBytes_GET_SIZE ∧
    PyString_FromStringAndSize = PyBytes_FromStringAndSize ∧
    (∀ buf : List Nat,
      PyString_AS_STRING (PyString_FromStringAndSize buf buf.length) = buf) ∧
    (∀ (buf : List Nat) (len : Nat), len ≤ buf.length →
      PyString_GET_SIZE (PyString_FromStringAndSize buf len) = len) ∧
    (∀ (s : List Nat) (v : PyObject), PyUnicode_FromString_native s = some v →
      (∃ cps, v = PyObject.text cps) ∧ PyBytes_CheckExact v = false) := by
  refine ⟨rfl, rfl, rfl, rfl, ?_, ?_, ?_⟩
  · intro buf
    simp [PyString_AS_STRING, PyBytes_AS_STRING, PyString_FromStringAndSize,
      PyBytes_FromStringAndSize]
  · intro buf len h
    simp [PyString_GET_SIZE, PyBytes_GET_SIZE, PyString_FromStringAndSize,
      PyBytes_FromStringAndSize, Nat.min_eq_left h]
  · intro s v hv
    unfold PyUnicode_FromString_native at hv
    cases hdec : utf8Decode (bytesConsumed s) with
    | none => rw [hdec] at hv; exact absurd hv (by simp)
    | some cps =>
      rw [hdec] at hv
      cases hv
      exact ⟨⟨cps, rfl⟩, rfl⟩

/-- C7 witness: the pass-through and text-type facts at concrete
inputs, the last on the two-byte UTF-8 encoding of U+00E9. -/
theorem C7_modern_mode_aliasing_witness :
    PyString_AS_STRING
        (PyString_FromStringAndSize [1, 2] ([1, 2] : List Nat).length) =
      [1, 2] ∧
    PyString_GET_SIZE (PyString_FromStringAndSize [1, 2, 3] 2) = 2 ∧
    ((∃ cps, PyObject.text [233] = PyObject.text cps) ∧
      PyBytes_CheckExact (PyObject.text [233]) = false) :=
  ⟨C7_modern_mode_aliasing.2.2.2.2.1 [1, 2],
   C7_modern_mode_aliasing.2.2.2.2.2.1 [1, 2, 3] 2 (by decide),
   C7_modern_mode_aliasing.2.2.2.2.2.2 [195, 169] (PyObject.text [233])
     (by decide)⟩

/-- C8: for the optional anchor and tag of Scalar, SequenceStart and
MappingStart, an absent host field encodes to no token (never an
empty-string token), a NULL engine pointer decodes to absent (never
silently treated as present), an empty-named engine token decodes to a
present empty string, and absent is distinguishable from the empty
string. -/
theorem C8_optional_field_fidelity :
    (∀ h : HostEvent, hostAnchorOpt h = some none →
      engineAnchorOpt (encode h) = some none) ∧
    (∀ h : HostEvent, hostTagOpt h = some none →
      engineTagOpt (encode h) = some none) ∧
    (∀ e : EngineEvent, engineAnchorOpt e = some none →
      hostAnchorOpt (decode e) = some none) ∧
    (∀ e : EngineEvent, engineTagOpt e = some none →
      hostTagOpt (decode e) = some none) ∧
    (∀ (e : EngineEvent) (st : ScalarStyle),
      engineAnchorOpt e = some (some ⟨[], st⟩) →
      hostAnchorOpt (decode e) = some (some [])) ∧
    (none : Option (List Nat)) ≠ some [] := by
  refine ⟨?_, ?_, ?_, ?_, ?_, by decide⟩
  · intro h hyp
    cases h <;> simp_all [hostAnchorOpt, engineAnchorOpt, encode]
  · intro h hyp
    cases h <;> simp_all [hostTagOpt, engineTagOpt, encode]
  · intro e hyp
    cases e <;> simp_all [hostAnchorOpt, engineAnchorOpt, decode]
  · intro e hyp
    cases e <;> simp_all [hostTagOpt, engineTagOpt, decode]
  · intro e st hyp
    cases e <;> simp_all [hostAnchorOpt, engineAnchorOpt, decode]

/-- C8 witness: the optional-field facts at concrete events. -/
theorem C8_optional_field_fidelity_witness :
    engineAnchorOpt
        (encode (HostEvent.scalar none none [97] true ScalarStyle.plain)) =
      some none ∧
    engineTagOpt (encode (HostEvent.mappingStart none none)) = some none ∧
    hostAnchorOpt (decode (EngineEvent.sequence_start none none none)) =
      some none ∧
    hostTagOpt
        (decode (EngineEvent.scalar none none ⟨[97], ScalarStyle.plain⟩
          true)) =
      some none ∧
    hostAnchorOpt
        (decode (EngineEvent.scalar (some ⟨[], ScalarStyle.any⟩) none
          ⟨[97], ScalarStyle.plain⟩ true)) =
      some (some []) :=
  ⟨C8_optional_field_fidelity.1 _ rfl,
   C8_optional_field_fidelity.2.1 _ rfl,
   C8_optional_field_fidelity.2.2.1 _ rfl,
   C8_optional_field_fidelity.2.2.2.1 _ rfl,
   C8_optional_field_fidelity.2.2.2.2.1 _ ScalarStyle.any rfl⟩

/-- C9: the opaque document_state handle of DocumentStart is forwarded
through decode and encode unchanged — the pointer value the emitter
receives is the one the parser produced — and the other fields of the
event are unaffected by the forwarding. -/
theorem C9_document_state_passthrough :
    (∀ (e : EngineEvent) (ds : Nat), engineDocState e = some ds →
      hostDocState (decode e) = some ds) ∧
    (∀ (h : HostEvent) (ds : Nat), hostDocState h = some ds →
      engineDocState (encode h) = some ds) ∧
    (∀ (tok : Option EngineToken) (ds : Nat) (impl : Bool),
      decode (EngineEvent.document_start tok ds impl) =
        HostEvent.documentStart ds impl ∧
      encode (decode (EngineEvent.document_start tok ds impl)) =
        EngineEvent.document_start none ds impl) := by
  refine ⟨?_, ?_, ?_⟩
  · intro e ds hyp
    cases e <;> simp_all [engineDocState, hostDocState, decode]
  · intro h ds hyp
    cases h <;> simp_all [engineDocState, hostDocState, encode]
  · intro tok ds impl
    exact ⟨rfl, rfl⟩

/-- C9 witness: the pass-through at a concrete document_start event. -/
theorem C9_document_state_passthrough_witness :
    hostDocState (decode (EngineEvent.document_start none 42 true)) =
      some 42 ∧
    engineDocState (encode (HostEvent.documentStart 42 true)) = some 42 ∧
    decode (EngineEvent.document_start none 42 true) =
      HostEvent.documentStart 42 true :=
  ⟨C9_document_state_passthrough.1 _ 42 rfl,
   C9_document_state_passthrough.2.1 _ 42 rfl,
   (C9_document_state_passthrough.2.2 none 42 true).1⟩

/-- C10: in the mirrored _fy_event union every member struct begins
with a fy_token pointer; in scalar, sequence_start and mapping_start
the anchor field is first and the tag field second; hence under every
layout parameter choice the anchor occupies offset 0 in the alias,
scalar, sequence_start and mapping_start members, and the tag occupies
the same offset in the latter three. -/
theorem C10_union_layout_invariants : ∀ p : CLayoutParams,
    _fy_event_members.map (fun m => (m.fields.map CField.type).head?) =
      List.replicate 10 (some CType.fy_token_ptr) ∧
    (scalar_member.fields.map CField.name).take 2 = ["anchor", "tag"] ∧
    (sequence_start_member.fields.map CField.name).take 2 =
      ["anchor", "tag"] ∧
    (mapping_start_member.fields.map CField.name).take 2 =
      ["anchor", "tag"] ∧
    (fieldOffsets p alias_member.fields).head? = some 0 ∧
    (fieldOffsets p scalar_member.fields).head? = some 0 ∧
    (fieldOffsets p sequence_start_member.fields).head? = some 0 ∧
    (fieldOffsets p mapping_start_member.fields).head? = some 0 ∧
    (fieldOffsets p scalar_member.fields).get? 1 =
      (fieldOffsets p sequence_start_member.fields).get? 1 ∧
    (fieldOffsets p sequence_start_member.fields).get? 1 =
      (fieldOffsets p mapping_start_member.fields).get? 1 := by
  intro p
  refine ⟨by decide, by decide, by decide, by decide,
    ?_, ?_, ?_, ?_, ?_, ?_⟩
  all_goals
    simp [fieldOffsets, fieldOffsetsAux, alias_member, scalar_member,
      sequence_start_member, mapping_start_member, alignofType, sizeofType,
      alignUp_zero]

/-- C10 witness: the shared tag offset at the common 64-bit layout
parameters. -/
theorem C10_union_layout_invariants_witness :
    (fieldOffsets ⟨8, 8, 1, 1⟩ scalar_member.fields).get? 1 =
      (fieldOffsets ⟨8, 8, 1, 1⟩ sequence_start_member.fields).get? 1 :=
  (C10_union_layout_invariants ⟨8, 8, 1, 1⟩).2.2.2.2.2.2.2.2.1

end PyYamlBridge
